import Mathlib

/-!
Verification of the hellacopy vertically-scrolling helicopter shooter.

The definitions below are a shallow embedding of `game/lib/main.py`:
pure fragments of the Python code become Lean functions, the per-tick
stateful parts become explicit state-passing functions on small state
records.  Pixel coordinates are modelled as `Int` (pygame rectangles use
machine ints, and no quantity in the game approaches overflow).
-/

namespace Hellacopy

/-- Constant `SCREEN_WIDTH` from main.py. -/
def SCREEN_WIDTH : Int := 240

/-- Constant `SCREEN_HEIGHT` from main.py. -/
def SCREEN_HEIGHT : Int := 240

/-- Constant `TILE_WIDTH` from main.py. -/
def TILE_WIDTH : Int := 16

/-- Constant `TILE_HEIGHT` from main.py. -/
def TILE_HEIGHT : Int := 16

/-- Constant `SPEED` (world scroll speed, pixels per tick) from main.py. -/
def SPEED : Int := 2

/-- Axis-aligned rectangle in the style of `pygame.Rect`: position of the
top-left corner plus width and height. -/
structure Rect where
  x : Int
  y : Int
  w : Int
  h : Int
deriving DecidableEq, Repr

/-- Left edge of a rect (`rect.left` in pygame). -/
def Rect.left (r : Rect) : Int := r.x

/-- Right edge of a rect (`rect.right` in pygame). -/
def Rect.right (r : Rect) : Int := r.x + r.w

/-- Top edge of a rect (`rect.top` in pygame). -/
def Rect.top (r : Rect) : Int := r.y

/-- Bottom edge of a rect (`rect.bottom` in pygame). -/
def Rect.bottom (r : Rect) : Int := r.y + r.h

/-- Assignment `rect.bottom = v` in pygame: moves the rect (size is kept). -/
def Rect.setBottom (r : Rect) (v : Int) : Rect := { r with y := v - r.h }

/-- Assignment `rect.top = v` in pygame: moves the rect (size is kept). -/
def Rect.setTop (r : Rect) (v : Int) : Rect := { r with y := v }

/-- Assignment `rect.right = v` in pygame: moves the rect (size is kept). -/
def Rect.setRight (r : Rect) (v : Int) : Rect := { r with x := v - r.w }

/-- Assignment `rect.left = v` in pygame: moves the rect (size is kept). -/
def Rect.setLeft (r : Rect) (v : Int) : Rect := { r with x := v }

/-- Solidity configuration of a tile: the directional block flags
(`t.config` entries, integers compared against 1 in `tile_block`). -/
structure TileConfig where
  top : Int
  left : Int
  right : Int
  bottom : Int
deriving DecidableEq, Repr

/-- Function `tile_block(g, t, a)` from main.py, the swept tile-blocking
resolution.  `tprev` and `trect` are the tile's `t._rect` and `t.rect`;
`aprev` is the actor's previous-tick rectangle `a._rect` and `a` its
current rectangle `a.rect`.  The `g` argument is unused in the source and
is dropped.  Each clause clamps one edge of the current rectangle to the
matching tile edge when the flag is set, the previous rectangle was on the
open side of that edge, and the current rectangle has crossed in; the
clauses run in source order (top, left, right, bottom), each seeing the
rectangle left by the previous one, because the pygame edge assignments
mutate `a.rect` in place. -/
def tile_block (c : TileConfig) (tprev trect : Rect) (aprev a : Rect) : Rect :=
  let a1 := if c.top = 1 ∧ aprev.bottom ≤ tprev.top ∧ trect.top < a.bottom
            then a.setBottom trect.top else a
  let a2 := if c.left = 1 ∧ aprev.right ≤ tprev.left ∧ trect.left < a1.right
            then a1.setRight trect.left else a1
  let a3 := if c.right = 1 ∧ tprev.right ≤ aprev.left ∧ a2.left < trect.right
            then a2.setLeft trect.right else a2
  if c.bottom = 1 ∧ tprev.bottom ≤ aprev.top ∧ a3.top < trect.bottom
  then a3.setTop trect.bottom else a3

/-- Claim C7: for every solid tile with a directional block flag and every
actor whose previous-tick rectangle was on the open side of that tile
edge, after `tile_block` the actor's current rectangle does not extend
past the tile boundary on that edge.  Stated for all four flags at once;
the tile's previous and current rectangles coincide (tiles do not move),
the previous actor rectangle has non-negative size, and the tile has
positive size (tiles are 16 by 16 pixels). -/
theorem tile_block_never_past_edge (c : TileConfig) (t aprev a : Rect)
    (hpw : 0 ≤ aprev.w) (hph : 0 ≤ aprev.h) (htw : 0 < t.w) (hth : 0 < t.h) :
    (c.top = 1 → aprev.bottom ≤ t.top →
      (tile_block c t t aprev a).bottom ≤ t.top) ∧
    (c.left = 1 → aprev.right ≤ t.left →
      (tile_block c t t aprev a).right ≤ t.left) ∧
    (c.right = 1 → t.right ≤ aprev.left →
      t.right ≤ (tile_block c t t aprev a).left) ∧
    (c.bottom = 1 → t.bottom ≤ aprev.top →
      t.bottom ≤ (tile_block c t t aprev a).top) := by
  simp only [tile_block, Rect.setBottom, Rect.setTop, Rect.setLeft, Rect.setRight,
    Rect.top, Rect.bottom, Rect.left, Rect.right]
  split_ifs <;> simp_all <;> omega

/-- Witness for `tile_block_never_past_edge` at a concrete blocking tile and
actor pair. -/
theorem tile_block_never_past_edge_witness :
    (TileConfig.top ⟨1, 1, 1, 1⟩ = 1 → Rect.bottom ⟨10, 0, 8, 8⟩ ≤ Rect.top ⟨8, 16, 16, 16⟩ →
      (tile_block ⟨1, 1, 1, 1⟩ ⟨8, 16, 16, 16⟩ ⟨8, 16, 16, 16⟩ ⟨10, 0, 8, 8⟩ ⟨10, 12, 8, 8⟩).bottom
        ≤ Rect.top ⟨8, 16, 16, 16⟩) ∧
    (TileConfig.left ⟨1, 1, 1, 1⟩ = 1 → Rect.right ⟨10, 0, 8, 8⟩ ≤ Rect.left ⟨8, 16, 16, 16⟩ →
      (tile_block ⟨1, 1, 1, 1⟩ ⟨8, 16, 16, 16⟩ ⟨8, 16, 16, 16⟩ ⟨10, 0, 8, 8⟩ ⟨10, 12, 8, 8⟩).right
        ≤ Rect.left ⟨8, 16, 16, 16⟩) ∧
    (TileConfig.right ⟨1, 1, 1, 1⟩ = 1 → Rect.right ⟨8, 16, 16, 16⟩ ≤ Rect.left ⟨10, 0, 8, 8⟩ →
      Rect.right ⟨8, 16, 16, 16⟩
        ≤ (tile_block ⟨1, 1, 1, 1⟩ ⟨8, 16, 16, 16⟩ ⟨8, 16, 16, 16⟩ ⟨10, 0, 8, 8⟩ ⟨10, 12, 8, 8⟩).left) ∧
    (TileConfig.bottom ⟨1, 1, 1, 1⟩ = 1 → Rect.bottom ⟨8, 16, 16, 16⟩ ≤ Rect.top ⟨10, 0, 8, 8⟩ →
      Rect.bottom ⟨8, 16, 16, 16⟩
        ≤ (tile_block ⟨1, 1, 1, 1⟩ ⟨8, 16, 16, 16⟩ ⟨8, 16, 16, 16⟩ ⟨10, 0, 8, 8⟩ ⟨10, 12, 8, 8⟩).top) :=
  tile_block_never_past_edge ⟨1, 1, 1, 1⟩ ⟨8, 16, 16, 16⟩ ⟨10, 0, 8, 8⟩ ⟨10, 12, 8, 8⟩
    (by decide) (by decide) (by decide) (by decide)

/-- Enumerated animation/lifecycle state of an actor, the explicit form of
the animator closures of `SuperSprite`: `Normal` is `default_animator`,
`Damaged` the closure returned by `create_damaged_animator`, `Destroyed`
the closure returned by `create_destroyed_animator` (for `Artillery`,
whose `destroyed_func` skips the explosion and removes the shot at once,
`Destroyed` is an immediately completed destruction). -/
inductive Anim
  | Normal
  | Damaged
  | Destroyed
deriving DecidableEq, Repr

/-- The concrete `SuperSprite` subclasses of main.py. -/
inductive VariantKind
  | player
  | enemyHeli
  | gunTurret
  | missleTurret
  | artillery
deriving DecidableEq, Repr

/-- The part of a `SuperSprite`'s state read and written by the damage
protocol (`hit_func` / `damaged_func` / `destroyed_func`). -/
structure ActorHit where
  hitcount : Int
  invincible : Bool
  anim : Anim
deriving DecidableEq, Repr

/-- Result of one `hit_func` call on a defender: the defender's new state
plus the side effects on the rest of the world.  `scoreDelta` is what the
variant's `destroyed_func` adds to the player's score, `invTask` records
that a post-frame task setting `invincible = True` was appended to
`g.post_frame_tasks` (it runs only at the end of the tick), `gameOver`
records a `g.game_over()` call, and `removedNow` an immediate
`remove_sprite_safely` (only `Artillery` does this). -/
structure HitOut where
  actor : ActorHit
  scoreDelta : Int
  invTask : Bool
  gameOver : Bool
  removedNow : Bool
deriving DecidableEq, Repr

/-- Method `SuperSprite.damaged_func`: installs the damaged animator,
which queues a post-frame task setting the invincibility flag.  No
subclass overrides it. -/
def damaged_func (a : ActorHit) : HitOut :=
  { actor := { a with anim := Anim.Damaged }, scoreDelta := 0,
    invTask := true, gameOver := false, removedNow := false }

/-- Method `destroyed_func` as each subclass defines it.  The base class
installs the destroyed animator (which queues a post-frame
set-invincible task); `Player.destroyed_func` additionally calls
`g.game_over()`, `EnemyHeli` adds 500 and `GunTurret`/`MissleTurret` add
1500 to the player's score, and `Artillery.destroyed_func` skips the
animator entirely and calls `after_destroyed_func`, removing the shot at
once (so no invincibility task is queued for it). -/
def destroyed_func (k : VariantKind) (a : ActorHit) : HitOut :=
  match k with
  | VariantKind.player =>
      { actor := { a with anim := Anim.Destroyed }, scoreDelta := 0,
        invTask := true, gameOver := true, removedNow := false }
  | VariantKind.enemyHeli =>
      { actor := { a with anim := Anim.Destroyed }, scoreDelta := 500,
        invTask := true, gameOver := false, removedNow := false }
  | VariantKind.gunTurret =>
      { actor := { a with anim := Anim.Destroyed }, scoreDelta := 1500,
        invTask := true, gameOver := false, removedNow := false }
  | VariantKind.missleTurret =>
      { actor := { a with anim := Anim.Destroyed }, scoreDelta := 1500,
        invTask := true, gameOver := false, removedNow := false }
  | VariantKind.artillery =>
      { actor := { a with anim := Anim.Destroyed }, scoreDelta := 0,
        invTask := false, gameOver := false, removedNow := true }

/-- Method `SuperSprite.hit_func(self, hitee)` from main.py: if either
side is invincible nothing happens; otherwise the defender's hitcount
drops by the aggressor's `collision_damage` and `damaged_func` or
`destroyed_func` fires depending on whether the new hitcount is still
positive.  `k` is the defender's variant, `hiteeInvincible` and
`hiteeDamage` the aggressor's invincibility flag and collision damage. -/
def hit_func (k : VariantKind) (a : ActorHit) (hiteeInvincible : Bool)
    (hiteeDamage : Int) : HitOut :=
  if a.invincible || hiteeInvincible then
    { actor := a, scoreDelta := 0, invTask := false, gameOver := false,
      removedNow := false }
  else
    let a2 := { a with hitcount := a.hitcount - hiteeDamage }
    if 0 < a2.hitcount then damaged_func a2 else destroyed_func k a2

/-- Effect of the post-frame task appended by `create_damaged_animator` or
`create_destroyed_animator`, executed by `SuperTilevid.run` after
collision resolution: `self.invincible = True`. -/
def applyInvTask (a : ActorHit) : ActorHit := { a with invincible := true }

/-- Claim C2: on a collision where neither party is invincible the
defender's hit-points decrease by exactly the aggressor's
collision-damage value; if the result is nonpositive the defender
transitions to `Destroyed`, otherwise to `Damaged`. -/
theorem hit_func_applies_damage (k : VariantKind) (a : ActorHit) (hv : Bool)
    (d : Int) (hB : a.invincible = false) (hA : hv = false) :
    (hit_func k a hv d).actor.hitcount = a.hitcount - d ∧
    (a.hitcount - d ≤ 0 → (hit_func k a hv d).actor.anim = Anim.Destroyed) ∧
    (0 < a.hitcount - d → (hit_func k a hv d).actor.anim = Anim.Damaged) := by
  subst hA
  simp only [hit_func, hB, Bool.or_false, Bool.false_eq_true, if_false]
  by_cases hpos : 0 < a.hitcount - d
  · have h1 : d < a.hitcount := by omega
    simp [hpos, h1, damaged_func]
  · cases k <;> simp [hpos, destroyed_func]

/-- Witness for `hit_func_applies_damage`: a gun turret at 3 hit-points
taking a hit of damage 1 drops to 2 and is merely damaged. -/
theorem hit_func_applies_damage_witness :
    (hit_func VariantKind.gunTurret ⟨3, false, Anim.Normal⟩ false 1).actor.hitcount
        = (3 : Int) - 1 ∧
    ((3 : Int) - 1 ≤ 0 →
      (hit_func VariantKind.gunTurret ⟨3, false, Anim.Normal⟩ false 1).actor.anim
        = Anim.Destroyed) ∧
    (0 < (3 : Int) - 1 →
      (hit_func VariantKind.gunTurret ⟨3, false, Anim.Normal⟩ false 1).actor.anim
        = Anim.Damaged) :=
  hit_func_applies_damage VariantKind.gunTurret ⟨3, false, Anim.Normal⟩ false 1 rfl rfl

/-- Claim C1 counterexample: within one collision-resolution pass a
freshly destroyed actor is not yet invincible - `destroyed_func` only
queues a post-frame task to set the flag - so a second hit in the same
pass still changes its hit-points and awards the kill value again.  An
enemy helicopter at 1 hit-point is hit for damage 1 (entering `Destroyed`
with `invincible` still `false`, score +500); hitting that state again
drops the hit-points to -1 and awards another 500, so a hit of an actor
whose animation-state is `Destroyed` does not always leave hit-points and
score unchanged. -/
theorem destroyed_not_yet_invincible_still_takes_damage :
    (hit_func VariantKind.enemyHeli ⟨1, false, Anim.Normal⟩ false 1).actor
      = ⟨0, false, Anim.Destroyed⟩ ∧
    (hit_func VariantKind.enemyHeli ⟨1, false, Anim.Normal⟩ false 1).scoreDelta = 500 ∧
    (hit_func VariantKind.enemyHeli ⟨0, false, Anim.Destroyed⟩ false 1).actor.hitcount = -1 ∧
    (hit_func VariantKind.enemyHeli ⟨0, false, Anim.Destroyed⟩ false 1).scoreDelta = 500 := by
  decide

/-- Claim C1 as amended: a hit leaves the defender's hit-points,
animation-state and the score unchanged whenever the defender or the
aggressor is invincible; and a destroyed actor (other than a projectile,
which is removed outright) has a set-invincible post-frame task queued,
so from the moment that task runs - the end of the tick in which it was
destroyed - it ignores all further damage.  Within the same resolution
pass, before the task runs, a just-destroyed actor can still take damage
(see the counterexample). -/
theorem hit_ignored_when_invincible :
    (∀ (k : VariantKind) (a : ActorHit) (hv : Bool) (d : Int),
      a.invincible = true ∨ hv = true →
      hit_func k a hv d =
        { actor := a, scoreDelta := 0, invTask := false, gameOver := false,
          removedNow := false }) ∧
    (∀ (k : VariantKind) (a : ActorHit) (d d2 : Int) (hv2 : Bool),
      a.invincible = false → a.hitcount - d ≤ 0 → k ≠ VariantKind.artillery →
      (hit_func k a false d).invTask = true ∧
      (hit_func k a false d).actor.anim = Anim.Destroyed ∧
      hit_func k (applyInvTask (hit_func k a false d).actor) hv2 d2 =
        { actor := applyInvTask (hit_func k a false d).actor, scoreDelta := 0,
          invTask := false, gameOver := false, removedNow := false }) := by
  constructor
  · intro k a hv d h
    rcases h with h | h <;> simp [hit_func, h]
  · intro k a d d2 hv2 hB hLethal hArt
    have hnpos : ¬(0 < a.hitcount - d) := by omega
    cases k
    case artillery => exact absurd rfl hArt
    all_goals simp [hit_func, hB, hnpos, destroyed_func, applyInvTask]

/-- Witness for `hit_ignored_when_invincible`: an invincible player
ignores a hit, and a gun turret destroyed by a lethal hit has the
invincibility task queued and, once it runs, ignores a further hit. -/
theorem hit_ignored_when_invincible_witness :
    (hit_func VariantKind.player ⟨10, true, Anim.Normal⟩ false 2 =
      { actor := ⟨10, true, Anim.Normal⟩, scoreDelta := 0, invTask := false,
        gameOver := false, removedNow := false }) ∧
    ((hit_func VariantKind.gunTurret ⟨1, false, Anim.Normal⟩ false 2).invTask = true ∧
     (hit_func VariantKind.gunTurret ⟨1, false, Anim.Normal⟩ false 2).actor.anim
        = Anim.Destroyed ∧
     hit_func VariantKind.gunTurret
        (applyInvTask (hit_func VariantKind.gunTurret ⟨1, false, Anim.Normal⟩ false 2).actor)
        false 1 =
       { actor := applyInvTask
           (hit_func VariantKind.gunTurret ⟨1, false, Anim.Normal⟩ false 2).actor,
         scoreDelta := 0, invTask := false, gameOver := false, removedNow := false }) :=
  ⟨hit_ignored_when_invincible.1 VariantKind.player ⟨10, true, Anim.Normal⟩ false 2
      (Or.inl rfl),
   hit_ignored_when_invincible.2 VariantKind.gunTurret ⟨1, false, Anim.Normal⟩ 2 1 false
      rfl (by decide) (by decide)⟩

/-- Python `list.remove(a)`: removes the first occurrence of `a`, or
raises `ValueError` (modelled as `none`) when `a` is absent.  Actors are
identified by a numeric id. -/
def list_remove : List Nat → Nat → Option (List Nat)
  | [], _ => none
  | x :: xs, a =>
      if x = a then some xs
      else (list_remove xs a).map (fun ys => x :: ys)

/-- Method `SuperSprite.remove_sprite_safely` from main.py:
`try: self.g.sprites.remove(self) except ValueError: pass` - the
`ValueError` raised when the actor is already gone is swallowed and the
collection is left as it was. -/
def remove_sprite_safely (sprites : List Nat) (a : Nat) : List Nat :=
  (list_remove sprites a).getD sprites

/-- Claim C5: removing an actor that is no longer in the world's actor
collection is a no-op - the `ValueError` is caught, nothing crashes (the
function is total by construction), and the collection afterwards equals
the collection before the removal. -/
theorem remove_sprite_safely_idempotent (sprites : List Nat) (a : Nat)
    (h : a ∉ sprites) : remove_sprite_safely sprites a = sprites := by
  have hnone : list_remove sprites a = none := by
    induction sprites with
    | nil => rfl
    | cons x xs ih =>
        have hx : ¬x = a := by
          intro hxa
          exact h (hxa ▸ List.mem_cons_self x xs)
        have hxs : a ∉ xs := fun hm => h (List.mem_cons_of_mem x hm)
        simp [list_remove, hx, ih hxs]
  simp [remove_sprite_safely, hnone]

/-- Witness for `remove_sprite_safely_idempotent`: actor 7 is not among
the live actors 1, 2, 3, so removing it changes nothing. -/
theorem remove_sprite_safely_idempotent_witness :
    remove_sprite_safely [1, 2, 3] 7 = [1, 2, 3] :=
  remove_sprite_safely_idempotent [1, 2, 3] 7 (by decide)

/-- Firing guard in `EnemyHeli.loop_func`:
`if random.randint(0, 30) == 0 and self.hitcount > 0:` spawns an
`Artillery` shot.  `r` is the drawn random number. -/
def enemyHeli_fire_guard (r : Nat) (hitcount : Int) : Bool :=
  r == 0 && decide (0 < hitcount)

/-- Firing guard in `GunTurret.loop_func` (inherited by `MissleTurret`):
`if self.uptime() % self.shot_freq == 0 and self.hitcount > 0:` spawns an
`Artillery` shot. -/
def gunTurret_fire_guard (uptime shot_freq : Nat) (hitcount : Int) : Bool :=
  uptime % shot_freq == 0 && decide (0 < hitcount)

/-- Claim C8: an enemy actor whose hit-points are nonpositive never
spawns a projectile - both the enemy helicopter's random fire check and
the turrets' periodic fire check are conjoined with `hitcount > 0`. -/
theorem dead_enemies_never_fire (r uptime shot_freq : Nat) (hitcount : Int)
    (h : hitcount ≤ 0) :
    enemyHeli_fire_guard r hitcount = false ∧
    gunTurret_fire_guard uptime shot_freq hitcount = false := by
  have : ¬(0 < hitcount) := by omega
  simp [enemyHeli_fire_guard, gunTurret_fire_guard, this]

/-- Witness for `dead_enemies_never_fire`: a wrecked turret with 0
hit-points on a tick where both guards' other conjuncts hold still does
not fire. -/
theorem dead_enemies_never_fire_witness :
    enemyHeli_fire_guard 0 0 = false ∧ gunTurret_fire_guard 40 20 0 = false :=
  dead_enemies_never_fire 0 40 20 0 (by decide)

/-- Faction tag: the group strings of main.py
(`default_group_name` is either the player or the enemy faction). -/
inductive Group
  | player
  | enemy
deriving DecidableEq, Repr

/-- The shooter classes of main.py - every `Artillery` constructor call
passes one of these as `shooter`. -/
inductive ShooterKind
  | player
  | enemyHeli
  | gunTurret
  | missleTurret
deriving DecidableEq, Repr

/-- Class attribute `default_group_name`: `Player` is in group `player`;
`EnemyHeli`, `GunTurret` and `MissleTurret` (which inherits it from
`GunTurret`) are in group `enemy`. -/
def default_group_name : ShooterKind → Group
  | ShooterKind.player => Group.player
  | ShooterKind.enemyHeli => Group.enemy
  | ShooterKind.gunTurret => Group.enemy
  | ShooterKind.missleTurret => Group.enemy

/-- Class attribute `default_agroup_name` (the attackable group):
`Player` attacks `enemy`; the three enemy classes attack `player`. -/
def default_agroup_name : ShooterKind → Group
  | ShooterKind.player => Group.enemy
  | ShooterKind.enemyHeli => Group.player
  | ShooterKind.gunTurret => Group.player
  | ShooterKind.missleTurret => Group.player

/-- The group data set up by `Artillery.__init__`: the projectile copies
its shooter's `default_group_name` and `default_agroup_name` verbatim
before calling `SuperSprite.__init__` (which registers them as `groups`
and `agroups`), and has 1 hit-point and the given collision damage. -/
structure ArtilleryInit where
  groups : Group
  agroups : Group
  default_hitcount : Int
  collision_damage : Int
deriving DecidableEq, Repr

/-- Constructor `Artillery.__init__(shooter, pos, angle, speed,
image_name, collision_damage)` restricted to the fields that matter for
hit dispatch. -/
def artillery_init (shooter : ShooterKind) (collision_damage : Int) : ArtilleryInit :=
  { groups := default_group_name shooter,
    agroups := default_agroup_name shooter,
    default_hitcount := 1,
    collision_damage := collision_damage }

/-- A live actor as far as hit dispatch is concerned: either one of the
base variants or a projectile fired by one of them.  Its group and
attackable group follow the variant catalog and `Artillery.__init__`. -/
inductive Entity
  | base (k : ShooterKind)
  | shot (shooter : ShooterKind)
deriving DecidableEq, Repr

/-- Group membership of an entity (`self.groups`). -/
def Entity.groups : Entity → Group
  | Entity.base k => default_group_name k
  | Entity.shot shooter => (artillery_init shooter 1).groups

/-- Attackable groups of an entity (`self.agroups`). -/
def Entity.agroups : Entity → Group
  | Entity.base k => default_agroup_name k
  | Entity.shot shooter => (artillery_init shooter 1).agroups

/-- Modelled from the spec: the pairwise collision dispatch - the loop
that pairs live actors and calls their `hit` handlers lives in the
external tile-engine collaborator, not under src.  Per the spec, a
defender's `hit` handler fires with a given aggressor exactly when the
aggressor's group is in the defender's attackable-group set (and their
rectangles intersect); every actor in this game has a single group and a
single attackable group, so membership is equality. -/
def hit_fires (defender_agroups aggressor_groups : Group) : Bool :=
  defender_agroups == aggressor_groups

/-- Claim C10: every projectile is created with exactly its shooter's
group and attackable group, and therefore never participates in a hit -
in either direction - with an actor of its shooter's own faction. -/
theorem projectile_no_friendly_fire :
    (∀ (shooter : ShooterKind) (d : Int),
      (artillery_init shooter d).groups = default_group_name shooter ∧
      (artillery_init shooter d).agroups = default_agroup_name shooter) ∧
    (∀ (shooter : ShooterKind) (e : Entity) (d : Int),
      Entity.groups e = default_group_name shooter →
      hit_fires (Entity.agroups e) (artillery_init shooter d).groups = false ∧
      hit_fires (artillery_init shooter d).agroups (Entity.groups e) = false) := by
  constructor
  · intro shooter d
    exact ⟨rfl, rfl⟩
  · intro shooter e d h
    cases e with
    | base k =>
        cases k <;> cases shooter <;>
          first
            | exact absurd h (by decide)
            | exact ⟨rfl, rfl⟩
    | shot s =>
        cases s <;> cases shooter <;>
          first
            | exact absurd h (by decide)
            | exact ⟨rfl, rfl⟩

/-- Witness for `projectile_no_friendly_fire`: a shot fired by the player
helicopter never exchanges hits with the player helicopter itself. -/
theorem projectile_no_friendly_fire_witness :
    ((artillery_init ShooterKind.player 1).groups = default_group_name ShooterKind.player ∧
     (artillery_init ShooterKind.player 1).agroups = default_agroup_name ShooterKind.player) ∧
    (hit_fires (Entity.agroups (Entity.base ShooterKind.player))
        (artillery_init ShooterKind.player 1).groups = false ∧
     hit_fires (artillery_init ShooterKind.player 1).agroups
        (Entity.groups (Entity.base ShooterKind.player)) = false) :=
  ⟨projectile_no_friendly_fire.1 ShooterKind.player 1,
   projectile_no_friendly_fire.2 ShooterKind.player (Entity.base ShooterKind.player) 1 rfl⟩

/-- The screens of the transition state machine
(`SplashScreenTilevid`, `LevelTilevid`, `GameOverTilevid`,
`WinnerTilevid`). -/
inductive ScreenId
  | splash
  | level
  | gameOver
  | winner
deriving DecidableEq, Repr

/-- The slice of a running `LevelTilevid` that the player's
damage-and-destruction path touches: the player's hit-points,
invincibility flag and animation state, the mutable counters captured by
the damaged and destroyed animator closures (`f.count`), how many
explosion frames the destroyed animator has displayed, whether the player
sprite has been removed, whether a set-invincible post-frame task is
queued, the pending screen transition `next_vid`, and the frame
counter. -/
structure LevelSim where
  playerHit : Int
  playerInv : Bool
  playerAnim : Anim
  damagedCount : Int
  destroyedCount : Nat
  explosionSteps : Nat
  removed : Bool
  pendingInvTask : Bool
  nextVid : Option ScreenId
  frame : Nat
deriving DecidableEq, Repr

/-- One call of the player's current `animator_func` (step 4 of the tick,
inside `SuperSprite.loop`).  `default_animator` only sets the image; the
damaged animator (`create_damaged_animator`) decrements its captured
count and, at zero, reverts to the default animator and clears
invincibility; the destroyed animator (`create_destroyed_animator`)
increments its count, shows explosion frame `count / 3` while that index
is at most 2, and afterwards calls `after_destroyed_func`, which for the
player removes the sprite.  A removed sprite's animator no longer
runs. -/
def playerAnimStep (s : LevelSim) : LevelSim :=
  if s.removed then s
  else
    match s.playerAnim with
    | Anim.Normal => s
    | Anim.Damaged =>
        let c := s.damagedCount - 1
        if c ≤ 0 then
          { s with damagedCount := c, playerAnim := Anim.Normal, playerInv := false }
        else { s with damagedCount := c }
    | Anim.Destroyed =>
        let c := s.destroyedCount + 1
        if c / 3 ≤ 2 then
          { s with destroyedCount := c, explosionSteps := s.explosionSteps + 1 }
        else { s with destroyedCount := c, removed := true }

/-- The player's `hit_func` during collision resolution (step 5), with
`Player`'s overrides: on non-lethal damage `damaged_func` installs the
damaged animator with `f.count = invincible_time = 45` and queues the
set-invincible task; on lethal damage `Player.destroyed_func` installs
the destroyed animator with `f.count = 0`, queues the task, and calls
`g.game_over()`, which sets `next_vid` to a new `GameOverTilevid`.
`attackerInv` and `d` are the aggressor's invincibility flag and
collision damage. -/
def playerHitStep (attackerInv : Bool) (d : Int) (s : LevelSim) : LevelSim :=
  if s.playerInv || attackerInv then s
  else
    let hc := s.playerHit - d
    if 0 < hc then
      { s with playerHit := hc, playerAnim := Anim.Damaged,
               damagedCount := 45, pendingInvTask := true }
    else
      { s with playerHit := hc, playerAnim := Anim.Destroyed,
               destroyedCount := 0, pendingInvTask := true,
               nextVid := some ScreenId.gameOver }

/-- Step 6 of the tick: `SuperTilevid.run` executes the queued post-frame
tasks; the only task the player path queues sets `invincible = True`. -/
def runPostFrameTasks (s : LevelSim) : LevelSim :=
  if s.pendingInvTask then
    { s with playerInv := true, pendingInvTask := false }
  else s

/-- One unpaused iteration of `SuperTilevid.run` for a level, restricted
to the player path: the sprite loop runs the player's animator, collision
resolution optionally lands one hit on the player (`attack` carries the
aggressor's invincibility flag and damage; `none` means no collision this
tick), the post-frame tasks run, the frame counter advances, and finally
`run` returns `next_vid` if it has been set - the returned `Option` is
the screen the level hands control to at the end of this very tick. -/
def levelTick (attack : Option (Bool × Int)) (s : LevelSim) :
    LevelSim × Option ScreenId :=
  let s1 := playerAnimStep s
  let s2 :=
    match attack with
    | none => s1
    | some ad => playerHitStep ad.1 ad.2 s1
  let s3 := runPostFrameTasks s2
  let s4 := { s3 with frame := s3.frame + 1 }
  (s4, s4.nextVid)

/-- A level state with the player at 1 hit-point and everything else
fresh. -/
def levelAtOneHp : LevelSim :=
  { playerHit := 1, playerInv := false, playerAnim := Anim.Normal,
    damagedCount := 0, destroyedCount := 0, explosionSteps := 0,
    removed := false, pendingInvTask := false, nextVid := none, frame := 0 }

/-- Claim C3 counterexample: when a lethal hit lands,
`Player.destroyed_func` calls `g.game_over()` in the same tick, and
`SuperTilevid.run` returns the new screen at the end of that tick - the
`GameOver` transition fires with the destruction animation not yet
started (zero explosion frames shown), not after the animation's 3
explosion frames. -/
theorem gameover_fires_before_explosion_animation :
    (levelTick (some (false, 2)) levelAtOneHp).2 = some ScreenId.gameOver ∧
    (levelTick (some (false, 2)) levelAtOneHp).1.playerAnim = Anim.Destroyed ∧
    (levelTick (some (false, 2)) levelAtOneHp).1.explosionSteps = 0 := by
  decide

/-- Claim C3 as amended: when the player's hit-points drop to zero or
below, the player enters the `Destroyed` animation-state and the level
transitions to `GameOver` at the end of that same tick, before the
destruction animation has shown any of its explosion frames. -/
theorem gameover_transition_same_tick (s : LevelSim) (d : Int)
    (hAnim : s.playerAnim = Anim.Normal) (hInv : s.playerInv = false)
    (hLethal : s.playerHit ≤ d) :
    (levelTick (some (false, d)) s).2 = some ScreenId.gameOver ∧
    (levelTick (some (false, d)) s).1.playerAnim = Anim.Destroyed ∧
    (levelTick (some (false, d)) s).1.explosionSteps = s.explosionSteps := by
  have hnpos : ¬(0 < s.playerHit - d) := by omega
  by_cases hrem : s.removed = true <;>
    simp [levelTick, playerAnimStep, hAnim, hrem, playerHitStep, hInv, hnpos,
      runPostFrameTasks]

/-- Witness for `gameover_transition_same_tick`: a player at 10 hit-points
taking a 12-damage hit dies and hands off to `GameOver` the same tick. -/
theorem gameover_transition_same_tick_witness :
    (levelTick (some (false, 12))
        { playerHit := 10, playerInv := false, playerAnim := Anim.Normal,
          damagedCount := 0, destroyedCount := 0, explosionSteps := 0,
          removed := false, pendingInvTask := false, nextVid := none,
          frame := 100 }).2 = some ScreenId.gameOver ∧
    (levelTick (some (false, 12))
        { playerHit := 10, playerInv := false, playerAnim := Anim.Normal,
          damagedCount := 0, destroyedCount := 0, explosionSteps := 0,
          removed := false, pendingInvTask := false, nextVid := none,
          frame := 100 }).1.playerAnim = Anim.Destroyed ∧
    (levelTick (some (false, 12))
        { playerHit := 10, playerInv := false, playerAnim := Anim.Normal,
          damagedCount := 0, destroyedCount := 0, explosionSteps := 0,
          removed := false, pendingInvTask := false, nextVid := none,
          frame := 100 }).1.explosionSteps =
      LevelSim.explosionSteps
        { playerHit := 10, playerInv := false, playerAnim := Anim.Normal,
          damagedCount := 0, destroyedCount := 0, explosionSteps := 0,
          removed := false, pendingInvTask := false, nextVid := none,
          frame := 100 } :=
  gameover_transition_same_tick
    { playerHit := 10, playerInv := false, playerAnim := Anim.Normal,
      damagedCount := 0, destroyedCount := 0, explosionSteps := 0,
      removed := false, pendingInvTask := false, nextVid := none,
      frame := 100 } 12 rfl rfl (by decide)

/-- The per-actor attributes `Player.handle_done` reads while scanning
`g.sprites`: the class's `default_group_name` and the current
`invincible` flag. -/
structure SpriteSt where
  group : Group
  invincible : Bool
deriving DecidableEq, Repr

/-- Method `Player.handle_done` from main.py: scan `g.sprites`; if some
sprite has `default_group_name == 'enemy'` and is not invincible, break
and do nothing; otherwise (the Python for-else) call `g.winner()`.
Returns whether `g.winner()` is called. -/
def handle_done (sprites : List SpriteSt) : Bool :=
  sprites.all (fun s => !(s.group == Group.enemy && !s.invincible))

/-- The slice of a running `LevelTilevid` that decides the `Winner`
transition: the viewport's top coordinate `view.y`, the live actor list,
and the pending transition `next_vid`. -/
structure WinSim where
  viewY : Int
  sprites : List SpriteSt
  nextVid : Option ScreenId
deriving DecidableEq, Repr

/-- One unpaused level tick restricted to the winner path:
`LevelTilevid.pre_loop` moves the view up by `SPEED`; then in the sprite
loop `Player.loop_func` either keeps ascending (while
`view.y >= TILE_HEIGHT`) or calls `handle_done`, whose success calls
`g.winner()`, setting `next_vid` to a new `WinnerTilevid`; at the end of
the tick `SuperTilevid.run` returns `next_vid` if it is set.  The actor
list itself is carried unchanged - the other actors' behavior is outside
this slice. -/
def winTick (s : WinSim) : WinSim × Option ScreenId :=
  let v := s.viewY - SPEED
  let s1 :=
    if TILE_HEIGHT ≤ v then { s with viewY := v }
    else if handle_done s.sprites then
      { s with viewY := v, nextVid := some ScreenId.winner }
    else { s with viewY := v }
  (s1, s1.nextVid)

/-- Iterated level ticks as `SuperTilevid.run` performs them: each tick
ends with the `next_vid` check, and as soon as it is set the loop returns
that screen, so no further level tick runs.  The second component counts
the ticks that ended with a transition handed off (the run loop stops at
the first one). -/
def winRun : Nat → WinSim → WinSim × Nat
  | 0, s => (s, 0)
  | n + 1, s =>
      let t := winTick s
      match t.2 with
      | some _ => (t.1, 1)
      | none => winRun n t.1

/-- Claim C4: the `Level` to `Winner` transition fires exactly once, and
only when the viewport has fully scrolled to the level top
(`view.y` has dropped below `TILE_HEIGHT`) and no live enemy-group actor
is non-invincible; while any non-invincible enemy-group actor is live the
transition never fires; and because `run` returns the new screen the tick
the transition is set, it cannot fire a second time - with enough ticks
it fires exactly once. -/
theorem winner_fires_exactly_once :
    (∀ s : WinSim, s.nextVid = none →
      ((winTick s).2 = some ScreenId.winner ↔
        (s.viewY - SPEED < TILE_HEIGHT ∧ handle_done s.sprites = true))) ∧
    (∀ (s : WinSim) (e : SpriteSt), s.nextVid = none → e ∈ s.sprites →
      e.group = Group.enemy → e.invincible = false → (winTick s).2 = none) ∧
    (∀ (n : Nat) (s : WinSim), (winRun n s).2 ≤ 1) ∧
    (∀ (n : Nat) (s : WinSim), s.nextVid = none → 1 ≤ n →
      handle_done s.sprites = true → s.viewY - SPEED * n < TILE_HEIGHT →
      (winRun n s).2 = 1) := by
  have htick : ∀ s : WinSim, s.nextVid = none →
      ((winTick s).2 = some ScreenId.winner ↔
        (s.viewY - SPEED < TILE_HEIGHT ∧ handle_done s.sprites = true)) := by
    intro s hs
    simp only [winTick]
    by_cases hv : TILE_HEIGHT ≤ s.viewY - SPEED
    · simp [hv, hs]
    · by_cases hd : handle_done s.sprites
      · simp [hv, hd]
        omega
      · simp [hv, hd, hs]
  refine ⟨htick, ?_, ?_, ?_⟩
  · intro s e hs he hg hi
    have hd : handle_done s.sprites = false := by
      simp only [handle_done, List.all_eq_false]
      exact ⟨e, he, by simp [hg, hi]⟩
    simp only [winTick]
    by_cases hv : TILE_HEIGHT ≤ s.viewY - SPEED
    · simp [hv, hs]
    · simp [hv, hd, hs]
  · intro n
    induction n with
    | zero => intro s; simp [winRun]
    | succ m ih =>
        intro s
        simp only [winRun]
        cases h : (winTick s).2 with
        | none => simpa [h] using ih (winTick s).1
        | some v => simp [h]
  · intro n
    induction n with
    | zero => intro s _ h1; omega
    | succ m ih =>
        intro s hs h1 hd hv
        simp only [winRun]
        by_cases hfire : TILE_HEIGHT ≤ s.viewY - SPEED
        · have hnone : (winTick s).2 = none := by
            simp [winTick, hfire, hs]
          have hm1 : 1 ≤ m := by
            rcases Nat.eq_zero_or_pos m with hm | hm
            · subst hm
              simp only [SPEED, TILE_HEIGHT] at hfire hv
              omega
            · omega
          have hstate : (winTick s).1 =
              { s with viewY := s.viewY - SPEED } := by
            simp [winTick, hfire]
          rw [hnone]
          rw [hstate]
          have := ih { s with viewY := s.viewY - SPEED } hs hm1 hd
            (by
              simp only []
              have : (m : Int) + 1 = (Nat.succ m : Int) := by push_cast; ring
              simp only [SPEED] at hv ⊢
              push_cast at hv ⊢
              omega)
          simpa using this
        · have hsome : (winTick s).2 = some ScreenId.winner := by
            simp [winTick, hfire, hd]
          rw [hsome]

/-- Witness for `winner_fires_exactly_once`: with one wrecked (invincible)
turret left and the viewport two rows from the top, the transition fires
in the tick the viewport crosses the top and exactly once over a
three-tick run; with a live non-invincible enemy it does not fire. -/
theorem winner_fires_exactly_once_witness :
    ((winTick ⟨17, [⟨Group.enemy, true⟩], none⟩).2 = some ScreenId.winner ↔
      ((17 : Int) - SPEED < TILE_HEIGHT ∧
        handle_done [⟨Group.enemy, true⟩] = true)) ∧
    ((winTick ⟨17, [⟨Group.enemy, false⟩], none⟩).2 = none) ∧
    ((winRun 3 ⟨17, [⟨Group.enemy, true⟩], none⟩).2 ≤ 1) ∧
    ((winRun 3 ⟨20, [⟨Group.enemy, true⟩], none⟩).2 = 1) :=
  ⟨winner_fires_exactly_once.1 ⟨17, [⟨Group.enemy, true⟩], none⟩ rfl,
   winner_fires_exactly_once.2.1 ⟨17, [⟨Group.enemy, false⟩], none⟩
     ⟨Group.enemy, false⟩ rfl (by decide) rfl rfl,
   winner_fires_exactly_once.2.2.1 3 ⟨17, [⟨Group.enemy, true⟩], none⟩,
   winner_fires_exactly_once.2.2.2 3 ⟨20, [⟨Group.enemy, true⟩], none⟩ rfl
     (by decide) (by decide) (by decide)⟩

/-- The pygame events `SuperTilevid.run` and `LevelTilevid.handle_event`
distinguish: window close (`QUIT`), the escape key, F9
(toggle-fullscreen, no simulation effect), the return key (which
`LevelTilevid.handle_event` turns into a pause toggle), and anything
else. -/
inductive Ev
  | quitEvent
  | keyEscape
  | keyF9
  | keyReturn
  | keyOther
deriving DecidableEq, Repr

/-- The event loop at the top of `SuperTilevid.run`, with
`LevelTilevid.handle_event` as the uncaught-event handler: `QUIT` and
escape set the quit flag, F9 toggles fullscreen (outside the simulation
state), and return executes `self.pause ^= 1`.  The pair is
(pause, quit). -/
def handle_events (pq : Bool × Bool) : List Ev → Bool × Bool
  | [] => pq
  | e :: rest =>
      handle_events
        (match e with
         | Ev.quitEvent => (pq.1, true)
         | Ev.keyEscape => (pq.1, true)
         | Ev.keyF9 => pq
         | Ev.keyReturn => (!pq.1, pq.2)
         | Ev.keyOther => pq) rest

/-- The simulation state `SuperTilevid.run` guards behind
`if not self.pause:`: the frame counter, the viewport position, the
player's score, and the live actor list with each actor's state. -/
structure TickState where
  frame : Nat
  viewY : Int
  score : Int
  sprites : List SpriteSt
deriving DecidableEq, Repr

/-- One iteration of the `while not self.quit:` loop in
`SuperTilevid.run`: the event loop always runs; then, only when the
(possibly just-toggled) pause flag is clear, the whole guarded block runs -
`pre_loop` (viewport advance and spawns), `loop` (actor updates and
collisions), `screen.fill`, `paint`, `post_paint`, the queued post-frame
tasks, `display.flip`, and the frame-counter increment.  `body` is the
combined simulation effect of that block on the state; the final `Bool`
reports whether the rendering calls (`fill`/`paint`/`post_paint`/`flip`)
ran this iteration.  When the pause flag is set, none of it runs. -/
def run_iteration (body : TickState → TickState) (evs : List Ev)
    (pause quit : Bool) (s : TickState) :
    (Bool × Bool) × TickState × Bool :=
  let pq := handle_events (pause, quit) evs
  if pq.1 then (pq, s, false)
  else (pq, { body s with frame := (body s).frame + 1 }, true)

/-- Claim C6 counterexample: with the pause flag set and no input, an
iteration of `SuperTilevid.run` leaves the whole simulation state
unchanged - but it also skips rendering (the `screen.fill`, `paint`,
`post_paint` and `display.flip` calls sit inside the `if not self.pause:`
block), so the claim that rendering continues to run each tick while
paused is false at this concrete tick. -/
theorem paused_tick_skips_rendering :
    (run_iteration (fun s => { s with viewY := s.viewY - SPEED }) [] true false
        ⟨5, 100, 0, [⟨Group.enemy, false⟩]⟩).2.2 = false ∧
    (run_iteration (fun s => { s with viewY := s.viewY - SPEED }) [] true false
        ⟨5, 100, 0, [⟨Group.enemy, false⟩]⟩).2.1
      = ⟨5, 100, 0, [⟨Group.enemy, false⟩]⟩ := by
  decide

/-- Claim C6 as amended: while the pause flag is set (and this tick's
input does not toggle it off), an iteration leaves the frame counter,
viewport, score and actor collection unchanged and skips rendering as
well; only the input/quit handling runs. -/
theorem paused_tick_frozen (body : TickState → TickState) (evs : List Ev)
    (q : Bool) (s : TickState)
    (h : (handle_events (true, q) evs).1 = true) :
    run_iteration body evs true q s = (handle_events (true, q) evs, s, false) := by
  simp [run_iteration, h]

/-- Witness for `paused_tick_frozen`: a paused tick whose only input is a
quit request processes the quit flag but freezes the simulation and does
not render. -/
theorem paused_tick_frozen_witness :
    run_iteration (fun s => { s with score := s.score + 500 }) [Ev.quitEvent]
        true false ⟨7, 64, 1500, []⟩ =
      (handle_events (true, false) [Ev.quitEvent], ⟨7, 64, 1500, []⟩, false) :=
  paused_tick_frozen (fun s => { s with score := s.score + 500 }) [Ev.quitEvent]
    false ⟨7, 64, 1500, []⟩ (by decide)

/-- Pygame's `Rect.clamp_ip(bounds)` (an external collaborator contract):
moves the rect so it lies completely inside `bounds`; if it is too large
on an axis it is centered on that axis (sizes are kept). -/
def Rect.clamp (r bounds : Rect) : Rect :=
  let nx :=
    if bounds.w ≤ r.w then bounds.x + bounds.w / 2 - r.w / 2
    else if r.x < bounds.x then bounds.x
    else if bounds.x + bounds.w < r.x + r.w then bounds.x + bounds.w - r.w
    else r.x
  let ny :=
    if bounds.h ≤ r.h then bounds.y + bounds.h / 2 - r.h / 2
    else if r.y < bounds.y then bounds.y
    else if bounds.y + bounds.h < r.y + r.h then bounds.y + bounds.h - r.h
    else r.y
  { x := nx, y := ny, w := r.w, h := r.h }

/-- The arrow-key state `Player.loop_func` reads with
`pygame.key.get_pressed()`. -/
structure Keys where
  up : Bool
  down : Bool
  left : Bool
  right : Bool
deriving DecidableEq, Repr

/-- The rectangle updates of `Player.loop_func` from main.py: while the
level is still scrolling (`view.y >= TILE_HEIGHT`) the helicopter drifts
up by `SPEED`; the arrow keys add five pixels per pressed direction; and
finally `self.rect.clamp_ip(self.g.view)` confines the rect to the
viewport.  (Firing a shot spawns a new sprite and does not move the
player, and `handle_done` in the non-scrolling branch does not touch the
rect.) -/
def player_move (view : Rect) (keys : Keys) (r : Rect) : Rect :=
  let r1 := if TILE_HEIGHT ≤ view.y then { r with y := r.y - SPEED } else r
  let dx : Int := (if keys.right then 1 else 0) - (if keys.left then 1 else 0)
  let dy : Int := (if keys.down then 1 else 0) - (if keys.up then 1 else 0)
  let r2 := { r1 with x := r1.x + dx * 5, y := r1.y + dy * 5 }
  Rect.clamp r2 view

/-- Method `SuperSprite.constrain_sprites` from main.py, the bounds-cull
check run after each actor's loop and animator: the actor is removed
(via `remove_sprite_safely`) when its rect leaves the view on the left or
right, below the bottom, or more than one tile height above the top.
Returns whether the actor is culled. -/
def constrain_culls (view r : Rect) : Bool :=
  decide (r.left < view.left) || decide (view.right < r.right) ||
  decide (view.bottom < r.top) || decide (r.bottom < view.top - TILE_HEIGHT)

/-- Helper: a rectangle strictly smaller than the view on both axes is,
once clamped into the view, never culled by `constrain_sprites`. -/
theorem clamp_inside_view (q view : Rect)
    (_hw0 : 0 ≤ q.w) (hw : q.w < view.w) (hh0 : 0 ≤ q.h) (hh : q.h < view.h) :
    constrain_culls view (Rect.clamp q view) = false := by
  simp only [constrain_culls, Rect.clamp, Rect.left, Rect.right, Rect.top,
    Rect.bottom, TILE_HEIGHT, Bool.or_eq_false_iff, decide_eq_false_iff_not,
    not_lt]
  refine ⟨⟨⟨?_, ?_⟩, ?_⟩, ?_⟩ <;> split_ifs <;> omega

/-- Claim C9: after the player's per-tick update the player's rectangle
is clamped inside the viewport, so the bounds-cull check that follows in
the same `SuperSprite.loop` call never removes the player (the player's
animators change only the image, not the rect, between the clamp and the
check).  The player sprite is strictly smaller than the 240 by 240
viewport on both axes and has non-negative size. -/
theorem player_never_culled (view : Rect) (keys : Keys) (r : Rect)
    (hw0 : 0 ≤ r.w) (hw : r.w < view.w) (hh0 : 0 ≤ r.h) (hh : r.h < view.h) :
    constrain_culls view (player_move view keys r) = false := by
  simp only [player_move]
  apply clamp_inside_view <;> split_ifs <;> simpa

/-- Witness for `player_never_culled`: the starting player rect inside
the level viewport, all arrow keys pressed. -/
theorem player_never_culled_witness :
    constrain_culls ⟨0, 2928, 240, 240⟩
      (player_move ⟨0, 2928, 240, 240⟩ ⟨true, true, true, true⟩
        ⟨110, 3100, 20, 30⟩) = false :=
  player_never_culled ⟨0, 2928, 240, 240⟩ ⟨true, true, true, true⟩
    ⟨110, 3100, 20, 30⟩ (by decide) (by decide) (by decide) (by decide)

end Hellacopy
